import Mathlib

/-!
Shallow embedding of the core persistence / gamification / streak /
notification layer of the Tharprojek personal-development web app,
together with proofs of the testable properties stated in its
specification.

Modelling conventions, used throughout:

* JavaScript `Date` instants are integers (milliseconds), calendar dates
  (the `toISOString().split('T')[0]` day strings) are integers (day
  numbers); both are modelled as `Int` (or `Nat` where the source only
  ever produces non-negative values).
* JavaScript values that are only ever moved through
  `JSON.stringify`/`JSON.parse` round trips are modelled by their
  serialized strings (`JSON.parse (JSON.stringify v) = v` on the
  serializable values this app stores, so the two views are isomorphic).
* `localStorage` is an association list `key ↦ serialized value`;
  a write through the storage manager is recorded in the state.
* UI-only statements (DOM updates, toasts, CSS) are out of scope per the
  specification and are dropped from the embedding.
-/

/-! ## Gamification engine, `src/unnamed/part_007` (`GamificationManager`) -/

namespace Gamification

/-- `GamificationManager.calculateLevel` (part_007, lines 234-236):
`Math.floor(Math.sqrt(xp / 100)) + 1`.  For a natural number `xp`,
`⌊√(xp / 100)⌋ = Nat.sqrt (xp / 100)` (with truncating division), since
for integer `k` one has `k ≤ √(xp/100) ↔ k² ≤ xp/100 ↔ k² ≤ ⌊xp/100⌋`. -/
def calculateLevel (xp : Nat) : Nat := Nat.sqrt (xp / 100) + 1

end Gamification

/-! ## Duplicate gamification engine, `src/js/habit-engine.js`
(second `GamificationManager` class, lines 836-878) -/

namespace HabitEngineGamification

/-- `GamificationManager.getXPForLevel` (habit-engine.js, lines 870-874):
`if (level <= 1) return 0; return 50*(level-1)*(level-2) + 100*(level-2) + 100`. -/
def getXPForLevel (level : Nat) : Nat :=
  if level ≤ 1 then 0 else 50 * (level - 1) * (level - 2) + 100 * (level - 2) + 100

/-- The `while (xp >= this.getXPForLevel(level + 1)) level++` loop of
`calculateLevel`, with explicit fuel.  The loop keeps running only while
`getXPForLevel (level+1) ≤ xp`, and `getXPForLevel l ≥ 100 * (l - 1)`
for `l ≥ 2`, so the level never climbs past `xp / 100 + 1`; the fuel
supplied by `calculateLevel` below therefore always suffices and the
embedding computes exactly what the loop computes. -/
def calcLevelLoop (xp : Nat) : Nat → Nat → Nat
  | 0, level => level
  | fuel + 1, level =>
      if getXPForLevel (level + 1) ≤ xp then calcLevelLoop xp fuel (level + 1) else level

/-- `GamificationManager.calculateLevel` (habit-engine.js, lines 862-868):
starts at level 1 and climbs while `xp ≥ getXPForLevel (level + 1)`. -/
def calculateLevel (xp : Nat) : Nat := calcLevelLoop xp (xp / 100 + 1) 1

end HabitEngineGamification

/-! ## Streak tracker, `src/js/habit-engine.js` (`HabitEngine`) -/

namespace HabitEngine

/-- Status of a habit log entry: the source writes the strings
`'completed'` / `'pending'`. -/
inductive LogStatus where
  | completed
  | pending
deriving DecidableEq, Repr

/-- One entry of `this.habitLogs` for a fixed habit (the `habitId` field
is dropped because the embedding tracks a single habit): `date` is the
calendar day, `status` the completion status. -/
structure HLog where
  date : Int
  status : LogStatus
deriving DecidableEq, Repr

/-- The per-habit streak record (`initializeStreak`, habit-engine.js,
lines 223-234, and the default created inside `updateStreak`).
`lastCompleted` stores the calendar day of the stored ISO timestamp. -/
structure StreakRecord where
  currentStreak : Int
  bestStreak : Int
  lastCompleted : Option Int
  totalCompletions : Int
deriving DecidableEq, Repr

/-- The record written by `HabitEngine.initializeStreak`:
`{currentStreak: 0, bestStreak: 0, lastCompleted: null, totalCompletions: 0}`. -/
def initialStreak : StreakRecord :=
  { currentStreak := 0, bestStreak := 0, lastCompleted := none, totalCompletions := 0 }

/-- Whether the log list contains a completed entry for day `d`
(the `this.habitLogs.find(log => log.date === yesterdayStr &&
log.status === 'completed')` lookup of `updateStreak`). -/
def hasCompletedLog (logs : List HLog) (d : Int) : Bool :=
  logs.any fun log => log.date = d && log.status = LogStatus.completed

/-- `HabitEngine.updateStreak` (habit-engine.js, lines 290-336), for a
fixed habit whose streak record already exists.  `today` is the current
calendar day (`new Date()` of the call).  On completion: increment
`totalCompletions`; if a completed log exists for yesterday or
`currentStreak === 0`, increment `currentStreak`, else reset it to 1;
raise `bestStreak` if exceeded; stamp `lastCompleted` with now.  On
un-completion: if `lastCompleted` falls on today, lower `currentStreak`
by one, floored at 0. -/
def updateStreak (today : Int) (completed : Bool) (logs : List HLog)
    (streak : StreakRecord) : StreakRecord :=
  if completed then
    let total := streak.totalCompletions + 1
    let cur :=
      if hasCompletedLog logs (today - 1) || streak.currentStreak = 0 then
        streak.currentStreak + 1
      else 1
    let best := if streak.bestStreak < cur then cur else streak.bestStreak
    { currentStreak := cur, bestStreak := best,
      lastCompleted := some today, totalCompletions := total }
  else
    if streak.lastCompleted = some today then
      { streak with currentStreak := max 0 (streak.currentStreak - 1) }
    else streak

/-- The in-memory upsert of `this.habitLogs` performed by `toggleHabit`
(habit-engine.js, lines 254-263): replace the first entry with today's
date, or append. -/
def upsertLog (entry : HLog) : List HLog → List HLog
  | [] => [entry]
  | l :: ls => if l.date = entry.date then entry :: ls else l :: upsertLog entry ls

/-- The state `toggleHabit` operates on: the habit's log list and its
streak record. -/
structure EngineState where
  logs : List HLog
  streak : StreakRecord
deriving DecidableEq, Repr

/-- `HabitEngine.toggleHabit` (habit-engine.js, lines 239-285), data part:
writes today's log entry (upsert), then runs `updateStreak` on the
updated log list.  (The XP award is the gamification engine's concern
and is embedded separately.) -/
def toggleHabit (today : Int) (completed : Bool) (s : EngineState) : EngineState :=
  let logs' := upsertLog { date := today, status := if completed then .completed else .pending } s.logs
  { logs := logs', streak := updateStreak today completed logs' s.streak }

/-- A user-driven event on one habit: completing or un-completing it on
a given calendar day. -/
inductive Op where
  | complete (day : Int)
  | uncomplete (day : Int)
deriving DecidableEq, Repr

/-- One operation applied through `toggleHabit`. -/
def step (op : Op) (s : EngineState) : EngineState :=
  match op with
  | .complete d => toggleHabit d true s
  | .uncomplete d => toggleHabit d false s

/-- The state of a freshly created habit: no logs, `initializeStreak`
record. -/
def initState : EngineState := { logs := [], streak := initialStreak }

/-- Running a sequence of operations from the initial state. -/
def run (ops : List Op) : EngineState := ops.foldl (fun s op => step op s) initState

end HabitEngine

/-! ## Mood streak, `src/js/mental-tracker.js` (`updateMoodStreak`) -/

namespace MentalTracker

/-- `updateMoodStreak` (mental-tracker.js, lines 343-359), value level:
given whether `moodHistory` has an entry for today and for yesterday,
returns the new `streaks.moodTracking` counter. -/
def updateMoodStreak (hasToday hasYesterday : Bool) (streak : Int) : Int :=
  if hasToday then (if hasYesterday then streak + 1 else 1) else streak

end MentalTracker

/-! ## Gamification state machine, `src/unnamed/part_007`
(`addXP` / `handleLevelUp` / `unlockAchievement`)

`addXP` calls `handleLevelUp`, which calls `unlockAchievement`, which
calls `addXP` again for the achievement's reward; the cycle is embedded
with `unlockAchievement` structurally recursive on a fuel parameter and
the other two functions parameterised by the unlock function they use.
The cycle terminates in the source because each nested `addXP` comes
from an achievement that was just flipped to `unlocked` and can never
award again, so any fuel at least the number of achievements computes
the fixed behaviour; the theorems below hold for every fuel value. -/

namespace Gamification

/-- The profile's `stats` object as the gamification engine uses it. -/
structure Stats where
  level : Nat
  xp : Nat
  totalXP : Nat
deriving DecidableEq, Repr

/-- One achievement entry (static catalog data plus the mutable
`unlocked` / `unlockedAt` pair); `unlockedAt` stores the stamp instant. -/
structure Achievement where
  id : String
  xpReward : Nat
  unlocked : Bool
  unlockedAt : Option Nat
deriving DecidableEq, Repr

/-- The record `addXP` returns (part_007, line 228):
`{ oldLevel, newLevel, xp: this.userProfile.stats.xp }`. -/
structure XPResult where
  oldLevel : Nat
  newLevel : Nat
  xp : Nat
deriving DecidableEq, Repr

/-- The manager's state: the in-memory profile stats and achievements
list, plus the last values written through the storage manager for the
`userProfile` and `achievements` localStorage keys (the write-through
persistence of `setToLocalStorage` / `saveToLocalStorage`; the size
ceiling of those writes is embedded separately in `StorageManager`). -/
structure GState where
  stats : Stats
  achievements : List Achievement
  persistedProfile : Option Stats := none
  persistedAchievements : Option (List Achievement) := none
deriving DecidableEq, Repr

/-- The in-place mutation `achievement.unlocked = true;
achievement.unlockedAt = ...` applied to the object
`this.achievements.find(a => a.id === achievementId)` returns: only the
first entry with the given id is changed. -/
def markUnlocked (id : String) (now : Nat) : List Achievement → List Achievement
  | [] => []
  | a :: rest =>
      if a.id = id then { a with unlocked := true, unlockedAt := some now } :: rest
      else a :: markUnlocked id now rest

/-- `GamificationManager.handleLevelUp` (part_007, lines 241-251),
parameterised by the unlock function: unlock `level_5` when the new
level reaches 5, `level_15` when it reaches 15, then save the profile.
(The level-up modal is UI and dropped.) -/
def handleLevelUpCore (unlock : String → Nat → GState → GState × Option Achievement)
    (newLevel now : Nat) (g : GState) : GState :=
  let g1 := if 5 ≤ newLevel then (unlock "level_5" now g).1 else g
  let g2 := if 15 ≤ newLevel then (unlock "level_15" now g1).1 else g1
  { g2 with persistedProfile := some g2.stats }

/-- `GamificationManager.addXP` (part_007, lines 201-229), parameterised
by the unlock function used through `handleLevelUp`: compute the old
level from the current xp, add `amount` to both `xp` and `totalXP`, save
the profile (the source's `setToLocalStorage` call — see
`StorageManager.setToLocalStorage` below), and on a level-up set
`stats.level`, run `handleLevelUp` and save again; finally return
`{ oldLevel, newLevel, xp }` with `xp` read from the stats at return
time. -/
def addXPCore (unlock : String → Nat → GState → GState × Option Achievement)
    (amount now : Nat) (g : GState) : GState × XPResult :=
  let oldLevel := calculateLevel g.stats.xp
  let g1 := { g with stats := { g.stats with
                xp := g.stats.xp + amount, totalXP := g.stats.totalXP + amount } }
  let newLevel := calculateLevel g1.stats.xp
  let g2 := { g1 with persistedProfile := some g1.stats }
  let g3 :=
    if oldLevel < newLevel then
      let ga := { g2 with stats := { g2.stats with level := newLevel } }
      let gb := handleLevelUpCore unlock newLevel now ga
      { gb with persistedProfile := some gb.stats }
    else g2
  (g3, { oldLevel := oldLevel, newLevel := newLevel, xp := g3.stats.xp })

/-- `GamificationManager.unlockAchievement` (part_007, lines 316-333):
look the id up; if absent or already unlocked, do nothing; otherwise set
`unlocked`/`unlockedAt`, award the reward through `addXP`, save the
achievements list, and return the unlocked entry.  Fuel bounds the
unlock → addXP → handleLevelUp → unlock recursion; at fuel 0 the nested
call is a no-op (never reached in the source, see the section comment). -/
def unlockAchievement : Nat → String → Nat → GState → GState × Option Achievement
  | 0, _, _, g => (g, none)
  | fuel + 1, id, now, g =>
      match g.achievements.find? (fun a => a.id = id) with
      | none => (g, none)
      | some a =>
          if a.unlocked then (g, none)
          else
            let g1 := { g with achievements := markUnlocked id now g.achievements }
            let g2 := (addXPCore (unlockAchievement fuel) a.xpReward now g1).1
            let g3 := { g2 with persistedAchievements := some g2.achievements }
            (g3, some { a with unlocked := true, unlockedAt := some now })

/-- `addXP` with the recursion depth made explicit. -/
def addXP (fuel amount now : Nat) (g : GState) : GState × XPResult :=
  addXPCore (unlockAchievement fuel) amount now g

/-- Whether the first achievement with the given id is already unlocked
(or no such achievement exists) — exactly the condition under which
`unlockAchievement` is a no-op. -/
def idUnlocked (id : String) (l : List Achievement) : Bool :=
  match l.find? (fun a => a.id = id) with
  | none => true
  | some a => a.unlocked

end Gamification

/-! ## Storage manager, `src/js/storage-manager.js` (`StorageManager`)

`localStorage` is an association list from keys to serialized values;
the serialized size is the JS string length (`JSON.stringify(data).length`
for values, key length for keys), exactly as `getLocalStorageSize` sums
them.  The system IndexedDB database is the list of object stores that
`createSystemStores` declares, each with its stored records; only
migration records ever flow through this embedding, so a uniform record
carrier is used for the stores. -/

namespace StorageManager

/-- The record `migrateToIndexedDB` writes:
`{originalKey, data, migratedAt}` (`migratedAt` is the write instant). -/
structure MigratedRecord where
  originalKey : String
  data : String
  migratedAt : Nat
deriving DecidableEq, Repr

/-- The `systemDB` database: its object stores by name, with their
records. -/
structure SystemDB where
  stores : List (String × List MigratedRecord)
deriving DecidableEq, Repr

/-- `StorageManager.createSystemStores` (storage-manager.js, lines
199-227) declares exactly these object stores for `systemDB`:
`pornReports`, `cleanStreak`, `aiCache`, `notifications` — in
particular, no `migratedData` store is ever created. -/
def createSystemStores : SystemDB :=
  ⟨[("pornReports", []), ("cleanStreak", []), ("aiCache", []), ("notifications", [])]⟩

/-- `StorageManager.saveToDB` against `systemDB` (storage-manager.js,
lines 232-253): `db.transaction(storeName, ...)` throws a
`NotFoundError` when the named object store was never created, which
rejects the save; otherwise `store.put` appends the record.  `none`
models the rejection. -/
def saveToDB (storeName : String) (rec : MigratedRecord) (db : SystemDB) :
    Option SystemDB :=
  if (db.stores.find? (fun p => p.1 = storeName)).isSome then
    some ⟨db.stores.map fun p => if p.1 = storeName then (p.1, p.2 ++ [rec]) else p⟩
  else none

/-- `StorageManager.migrateToIndexedDB` (storage-manager.js, lines
427-438): try to save `{originalKey, data, migratedAt}` into
`systemDB.migratedData`; a failure is caught and only logged, leaving
the database unchanged. -/
def migrateToIndexedDB (key data : String) (now : Nat) (db : SystemDB) : SystemDB :=
  match saveToDB "migratedData" ⟨key, data, now⟩ db with
  | some db' => db'
  | none => db

/-- The browser `localStorage`: keys with their serialized values. -/
abbrev LocalStore := List (String × String)

/-- Lookup of `localStorage.getItem`. -/
def lsGet (key : String) (ls : LocalStore) : Option String :=
  (ls.find? (fun kv => kv.1 = key)).map (fun kv => kv.2)

/-- `localStorage.setItem`: overwrite the key's entry or append one. -/
def lsSet (key value : String) : LocalStore → LocalStore
  | [] => [(key, value)]
  | kv :: rest => if kv.1 = key then (key, value) :: rest else kv :: lsSet key value rest

/-- `StorageManager.getLocalStorageSize` (storage-manager.js, lines
414-422): the sum over all entries of value length plus key length. -/
def getLocalStorageSize (ls : LocalStore) : Nat :=
  (ls.map fun kv => kv.2.length + kv.1.length).sum

/-- `this.maxLocalStorageSize = 5 * 1024 * 1024` (5 MiB). -/
def maxLocalStorageSize : Nat := 5 * 1024 * 1024

/-- The storage manager's persistent state: `localStorage` plus the
system database. -/
structure SMState where
  localStore : LocalStore
  systemDB : SystemDB
deriving DecidableEq, Repr

/-- `StorageManager.saveToLocalStorage` (storage-manager.js, lines
363-383): serialize the value (`serialized` is that string); if the
current size plus the serialized length exceeds the ceiling, redirect
the entry through `migrateToIndexedDB` and report `false`; otherwise
`localStorage.setItem` and report `true`.  (The `QuotaExceededError`
catch path duplicates the migration for a browser-raised overflow and
is subsumed by the size-check branch.) -/
def saveToLocalStorage (key serialized : String) (now : Nat) (s : SMState) :
    Bool × SMState :=
  if maxLocalStorageSize < getLocalStorageSize s.localStore + serialized.length then
    (false, { s with systemDB := migrateToIndexedDB key serialized now s.systemDB })
  else
    (true, { s with localStore := lsSet key serialized s.localStore })

/-- `StorageManager.getFromLocalStorage` (storage-manager.js, lines
388-396): `localStorage.getItem` then `JSON.parse`, returning null when
absent; on the serialized-value view the parse is the identity. -/
def getFromLocalStorage (key : String) (s : SMState) : Option String :=
  lsGet key s.localStore

/-- The contents of the `migratedData` collection of `systemDB`, or
`none` when that object store does not exist. -/
def getMigratedData (db : SystemDB) : Option (List MigratedRecord) :=
  (db.stores.find? (fun p => p.1 = "migratedData")).map (fun p => p.2)

/-- Modelled from the spec: `StorageManager.setToLocalStorage`, the
key-value `set` of §4.1.  `GamificationManager.addXP` (part_007, lines
210 and 217) and `main.js` call `window.storageManager.setToLocalStorage`,
but no revision of `StorageManager` under `src/` defines a method of
that name (the class only defines `saveToLocalStorage`); the missing
method is modelled from the spec's `set(key, value)` contract, i.e. with
the behaviour of `saveToLocalStorage` above. -/
def setToLocalStorage (key serialized : String) (now : Nat) (s : SMState) :
    Bool × SMState :=
  saveToLocalStorage key serialized now s

end StorageManager

/-! ## Prayer-times cache, `src/js/prayer-times.js` (`PrayerTimesManager`) -/

namespace PrayerTimes

/-- `this.cacheExpiry = 24 * 60 * 60 * 1000` (24 hours, milliseconds). -/
def cacheExpiry : Int := 24 * 60 * 60 * 1000

/-- The object `cachePrayerTimes` stores under the `prayerTimesCache`
key: the timings payload, the write instant, the city, and the write
day. -/
structure Cached where
  data : String
  timestamp : Int
  city : String
  date : Int
deriving DecidableEq, Repr

/-- `PrayerTimesManager.isCacheValid` (prayer-times.js, lines 119-127):
`now - cacheTime < this.cacheExpiry` (the catch branch handles a
malformed stored timestamp, which the integer model cannot produce). -/
def isCacheValid (timestamp now : Int) : Bool := now - timestamp < cacheExpiry

/-- The cache entry written after a successful fetch
(prayer-times.js, lines 70-75): fresh data with a fresh timestamp. -/
def cachePrayerTimes (data city : String) (now day : Int) : Cached :=
  { data := data, timestamp := now, city := city, date := day }

/-- The cache-or-fetch decision of `PrayerTimesManager.init`
(prayer-times.js, lines 28-38) together with the caching performed by a
successful `fetchPrayerTimes` (`fresh` is the producer's payload):
returns the timings used, whether the network producer was invoked, and
the cache entry written (if any). -/
def initFlow (cached : Option Cached) (now day : Int) (city fresh : String) :
    String × Bool × Option Cached :=
  match cached with
  | some c =>
      if isCacheValid c.timestamp now then (c.data, false, none)
      else (fresh, true, some (cachePrayerTimes fresh city now day))
  | none => (fresh, true, some (cachePrayerTimes fresh city now day))

end PrayerTimes

/-! ## Weather cache, `src/js/weather.js` (`WeatherManager`) -/

namespace Weather

/-- `this.cacheExpiry = 60 * 60 * 1000` (1 hour, milliseconds). -/
def cacheExpiry : Int := 60 * 60 * 1000

/-- The object stored under the `weatherCache` key (weather.js, lines
62-65): the weather payload plus the write instant. -/
structure Cached where
  data : String
  timestamp : Int
deriving DecidableEq, Repr

/-- The cache-or-fetch decision of `WeatherManager.init` (weather.js,
lines 29-34, the inline `now - timestamp < cacheExpiry` check) together
with the caching performed by a successful `fetchWeather`: returns the
weather data used, whether the network producer was invoked, and the
cache entry written (if any). -/
def initFlow (cached : Option Cached) (now : Int) (fresh : String) :
    String × Bool × Option Cached :=
  match cached with
  | some c =>
      if now - c.timestamp < cacheExpiry then (c.data, false, none)
      else (fresh, true, some { data := fresh, timestamp := now })
  | none => (fresh, true, some { data := fresh, timestamp := now })

end Weather

/-! ## AI integration, `src/unnamed/part_004` (`AIIntegration`) -/

namespace AIIntegration

/-- `this.dailyQuota = 20`. -/
def dailyQuota : Nat := 20

/-- `this.cacheExpiry = 7 * 24 * 60 * 60 * 1000` (7 days). -/
def cacheExpiry : Int := 7 * 24 * 60 * 60 * 1000

/-- `AIIntegration.isCacheValid` (part_004, lines 115-119):
`now - cacheTime < this.cacheExpiry`. -/
def isCacheValid (timestamp now : Int) : Bool := now - timestamp < cacheExpiry

/-- JavaScript `ToInt32`: reduce an integer into `[-2^31, 2^31)`. -/
def wrap32 (x : Int) : Int := (x + 2 ^ 31) % 2 ^ 32 - 2 ^ 31

/-- `AIIntegration.hashCode` (part_004, lines 132-140): the rolling
32-bit hash `hash = ((hash << 5) - hash) + charCode; hash = hash & hash`
rendered as decimal.  The shift wraps to a signed 32-bit value and the
`& hash` step coerces the exact sum back to 32 bits; characters of the
(ASCII) serialized context have `charCodeAt = toNat`. -/
def hashCode (s : String) : String :=
  toString (s.data.foldl (fun hash c => wrap32 (wrap32 (hash * 32) - hash + c.toNat)) 0)

/-- `AIIntegration.generateCacheKey` (part_004, lines 124-127):
the feature tag plus the hash of the serialized context. -/
def generateCacheKey (type contextStr : String) : String :=
  type ++ "-" ++ hashCode contextStr

/-- The value kept in `this.cache` per key (part_004, lines 174-178). -/
structure CacheVal where
  response : String
  timestamp : Int
  type : String
deriving DecidableEq, Repr

/-- The `ai-usage` record: `{date, count}` with the date as a day
number. -/
structure Usage where
  date : Int
  count : Nat
deriving DecidableEq, Repr

/-- The AI manager's state: the in-memory daily request counter and
response cache, plus the last values written through the storage
manager for the `ai-cache` and `ai-usage` keys. -/
structure AIState where
  requestCount : Nat
  cache : List (String × CacheVal)
  persistedCache : Option (List (String × CacheVal)) := none
  persistedUsage : Option Usage := none
deriving DecidableEq, Repr

/-- `Map.set` on the response cache: overwrite the key or append it. -/
def cacheSet (key : String) (v : CacheVal) :
    List (String × CacheVal) → List (String × CacheVal)
  | [] => [(key, v)]
  | kv :: rest => if kv.1 = key then (key, v) :: rest else kv :: cacheSet key v rest

/-- `AIIntegration.loadDailyCount` (part_004, lines 33-52): read the
persisted `ai-usage` record (defaulting to `{date: today, count: 0}`);
if its date is not today, reset the count to 0. -/
def loadDailyCount (stored : Option Usage) (today : Int) : Nat :=
  match stored with
  | none => 0
  | some u => if u.date ≠ today then 0 else u.count

/-- `AIIntegration.saveDailyCount` (part_004, lines 57-69): persist
`{date: today, count: requestCount}` under `ai-usage`. -/
def saveDailyCount (today : Int) (s : AIState) : AIState :=
  { s with persistedUsage := some { date := today, count := s.requestCount } }

/-- `AIIntegration.incrementDailyCount` (part_004, lines 74-77). -/
def incrementDailyCount (today : Int) (s : AIState) : AIState :=
  saveDailyCount today { s with requestCount := s.requestCount + 1 }

/-- `AIIntegration.isAIAvailable` (part_004, lines 145-147):
`requestCount < dailyQuota`. -/
def isAIAvailable (s : AIState) : Bool := s.requestCount < dailyQuota

/-- The fallback table's values: a fixed text, or (for `motivation`) a
list a random element is drawn from. -/
inductive FallbackVal where
  | text (s : String)
  | choices (l : List String)
deriving DecidableEq, Repr

/-- The `'Maaf, ...'` default returned for an unknown request type. -/
def defaultFallback : String :=
  "Maaf, saya tidak dapat memproses permintaan ini saat ini. Silakan coba lagi nanti."

/-- The static fallback table of `AIIntegration.getFallbackResponse`
(part_004, lines 275-374).  Texts are transcribed with `\n` for the
template-literal newlines, internal indentation normalized, and the
source's mojibake arrow rendered as `->`. -/
def fallbacks : List (String × FallbackVal) := [
  ("skill-recommendation", .text
    "Berikut 3 skill yang direkomendasikan:\n\n1. **Public Speaking**\n- Alasan: Meningkatkan confidence dan komunikasi\n- Roadmap: Praktik 15 menit/hari, ikuti komunitas seperti Toastmasters\n- Sumber: YouTube - \"Public Speaking Tips\" channel\n\n2. **Digital Marketing**\n- Alasan: Skill yang sangat dibutuhkan di era digital\n- Roadmap: Pelajari SEO, Social Media, Content Marketing\n- Sumber: Google Digital Garage (gratis)\n\n3. **Time Management**\n- Alasan: Fundamental untuk produktivitas\n- Roadmap: Implementasi Pomodoro, time blocking\n- Sumber: YouTube - \"Thomas Frank\" channel"),
  ("problem-solving", .text
    "Framework Problem Solving:\n\n1. **Define the Problem Clearly**\n- Tulis masalah secara spesifik\n- Identifikasi impact dan urgency\n\n2. **Root Cause Analysis (5 Why)**\n- Tanya \"mengapa\" 5x sampai ke akar masalah\n\n3. **Brainstorm Solutions**\n- List semua possible solutions\n- Evaluasi pro dan kontra masing-masing\n\n4. **Action Plan**\n- Pilih solusi terbaik\n- Buat timeline dan milestones\n- Execute dan monitor progress"),
  ("mental-health", .text
    "Strategi Coping CBT:\n\n1. **Thought Record**\n- Identifikasi negative thought\n- Tanya: \"Bukti apa yang mendukung/menentang pikiran ini?\"\n\n2. **Cognitive Reframing**\n- Ganti negative thought dengan balanced thought\n- Contoh: \"Saya gagal\" -> \"Saya belajar dari kesalahan ini\"\n\n3. **Behavioral Activation**\n- Lakukan aktivitas yang memberikan sense of accomplishment\n- Mulai dari kecil: jalan 10 menit, mandi air dingin\n\n4. **Mindfulness**\n- Focus on the present moment\n- Latihan napas dalam 4-7-8 technique"),
  ("motivation", .choices [
    "Kemajuan kecil hari ini adalah fondasi kesuksesan besar esok. - Pria 1%",
    "Disiplin adalah pilihan antara apa yang Anda inginkan sekarang vs apa yang Anda inginkan paling.",
    "Setiap hari adalah kesempatan baru untuk menjadi 1% lebih baik.",
    "Kekuatan sejati datang dari dalam, bukan dari luar.",
    "Perjalanan seribu mil dimulai dari satu langkah kecil."]),
  ("habit-suggestion", .text
    "3 Habit yang Direkomendasikan:\n\n1. **Morning Routine (30 menit)**\n- Meditasi 10 menit\n- Olahraga ringan 10 menit\n- Planning hari 10 menit\n- Benefit: Meningkatkan energi dan fokus\n\n2. **Reading (20 menit/hari)**\n- Pilih buku self-improvement\n- Baca dengan teknik active reading\n- Catat insight penting\n- Benefit: Expands knowledge and perspective\n\n3. **Gratitude Journal (5 menit)**\n- Tulis 3 hal yang bersyukur setiap malam\n- Reflect moment positif dalam hari\n- Benefit: Meningkatkan wellbeing dan optimism"),
  ("finance-advice", .text
    "3 Saran Pengelolaan Keuangan:\n\n1. **Track Every Expense**\n- Catat semua pengeluaran (cash/card)\n- Review weekly untuk identify unnecessary spending\n- Tools: Spreadsheet sederhana atau app gratis\n\n2. **50/30/20 Rule**\n- 50% untuk kebutuhan pokok\n- 30% untuk wants (hiburan, hobi)\n- 20% untuk savings dan investment\n- Sesuaikan proporsi sesuai kondisi\n\n3. **Emergency Fund**\n- Target: 3-6 bulan expenses\n- Mulai dari 10% income per bulan\n- Simpan di akun terpisah (tidak mudah diakses)")]

/-- `AIIntegration.getFallbackResponse` (part_004, lines 275-381): look
the type up; an array entry yields the element at
`Math.floor(Math.random() * length)` (the random draw is supplied as
the `rand` input, reduced modulo the length); a missing entry yields
the default text. -/
def getFallbackResponse (type : String) (rand : Nat) : String :=
  match (fallbacks.find? (fun p => p.1 = type)).map (fun p => p.2) with
  | some (FallbackVal.choices l) => l.getD (rand % l.length) defaultFallback
  | some (FallbackVal.text s) => s
  | none => defaultFallback

/-- The network branch of `generateRecommendation` (part_004, lines
169-191): `callAI` either yields a completion (`net = some response`,
which is cached with a fresh timestamp, persisted, and counted) or
fails/returns null (`net = none`, falling back).  The third component
records that the network producer was invoked. -/
def callPath (type cacheKey : String) (now today : Int) (net : Option String)
    (rand : Nat) (s : AIState) : String × AIState × Bool :=
  match net with
  | some resp =>
      let cache' := cacheSet cacheKey { response := resp, timestamp := now, type := type } s.cache
      let s1 := { s with cache := cache', persistedCache := some cache' }
      (resp, incrementDailyCount today s1, true)
  | none => (getFallbackResponse type rand, s, true)

/-- `AIIntegration.generateRecommendation` (part_004, lines 152-192):
quota check first (exhausted quota falls back without touching the
network), then the cache (`contextStr` is the serialized request
context), then the network branch. -/
def generateRecommendation (type contextStr : String) (now today : Int)
    (net : Option String) (rand : Nat) (s : AIState) : String × AIState × Bool :=
  if isAIAvailable s then
    let cacheKey := generateCacheKey type contextStr
    match s.cache.find? (fun kv => kv.1 = cacheKey) with
    | some kv =>
        if isCacheValid kv.2.timestamp now then (kv.2.response, s, false)
        else callPath type cacheKey now today net rand s
    | none => callPath type cacheKey now today net rand s
  else (getFallbackResponse type rand, s, false)

end AIIntegration

/-! ## Scheduled notification queue, `src/js/notifications.js`
(`NotificationManager`; the `part_008` and second-variant
`checkScheduledNotifications` bodies are behaviourally identical) -/

namespace Notif

/-- The `status` field: `'scheduled'` or `'triggered'`. -/
inductive NStatus where
  | scheduled
  | triggered
deriving DecidableEq, Repr

/-- A `scheduledNotifications` entry. -/
structure SN where
  id : Nat
  title : String
  message : String
  scheduledTime : Int
  status : NStatus
deriving DecidableEq, Repr

/-- The platform notification permission. -/
inductive Permission where
  | defaultPerm
  | granted
  | denied
deriving DecidableEq, Repr

/-- The notification manager's state: the permission, the scheduled
queue, and the log of notifications actually handed to the platform
(`new Notification(...)` constructions). -/
structure NMState where
  permission : Permission
  scheduledNotifications : List SN
  delivered : List SN := []
  persisted : Option (List SN) := none
deriving DecidableEq, Repr

/-- The due filter of `checkScheduledNotifications` (notifications.js,
line 120): `new Date(n.scheduledTime) <= now && n.status ===
'scheduled'`. -/
def isDue (n : SN) (now : Int) : Bool :=
  n.scheduledTime ≤ now && n.status = NStatus.scheduled

/-- `NotificationManager.checkScheduledNotifications` (notifications.js,
lines 118-126): collect the due entries, deliver each through
`showNotification` (which shows nothing and returns `false` unless
permission is `granted` — lines 80-97), set each due entry's status to
`triggered`, and save the queue when anything was due. -/
def checkScheduledNotifications (now : Int) (s : NMState) : NMState :=
  let due := s.scheduledNotifications.filter (fun n => isDue n now)
  let delivered' := if s.permission = Permission.granted then s.delivered ++ due else s.delivered
  let notifs' := s.scheduledNotifications.map fun n =>
    if isDue n now then { n with status := NStatus.triggered } else n
  let s' := { s with scheduledNotifications := notifs', delivered := delivered' }
  if due.isEmpty then s' else { s' with persisted := some notifs' }

/-- The number of delivery attempts made for the entry at position `i`
of the queue across a sequence of poll instants (each poll runs
`checkScheduledNotifications`; an attempt is the entry being in that
poll's due list). -/
def deliveryAttempts (i : Nat) : NMState → List Int → Nat
  | _, [] => 0
  | s, t :: ts =>
      (match s.scheduledNotifications[i]? with
       | some n => if isDue n t then 1 else 0
       | none => 0) + deliveryAttempts i (checkScheduledNotifications t s) ts

end Notif

/-! ## Theorems -/

/-- Characterization of the part_007 level function: `calculateLevel xp`
is `k + 1` exactly when `xp` lies in the quadratic band
`[100·k², 100·(k+1)²)` — the integer rendering of
`⌊√(xp/100)⌋ = k`. -/
theorem Gamification.calculateLevel_eq_iff (xp k : Nat) :
    Gamification.calculateLevel xp = k + 1 ↔
      k * k * 100 ≤ xp ∧ xp < (k + 1) * (k + 1) * 100 := by
  unfold Gamification.calculateLevel
  have h100 : (0 : Nat) < 100 := by norm_num
  constructor
  · intro h
    have hk : Nat.sqrt (xp / 100) = k := by omega
    have h1 : k * k ≤ xp / 100 := Nat.le_sqrt.mp (le_of_eq hk.symm)
    have h2 : xp / 100 < (k + 1) * (k + 1) := Nat.sqrt_lt.mp (by omega)
    exact ⟨(Nat.le_div_iff_mul_le h100).mp h1, (Nat.div_lt_iff_lt_mul h100).mp h2⟩
  · rintro ⟨h1, h2⟩
    have ha : k ≤ Nat.sqrt (xp / 100) :=
      Nat.le_sqrt.mpr ((Nat.le_div_iff_mul_le h100).mpr h1)
    have hb : Nat.sqrt (xp / 100) < k + 1 :=
      Nat.sqrt_lt.mpr ((Nat.div_lt_iff_lt_mul h100).mpr h2)
    omega

/-- C1: the (part_007) level function is `floor(sqrt(xp/100)) + 1`
(characterized over the integers as the quadratic bands
`100·k² ≤ xp < 100·(k+1)²`), and it takes the concrete values
`level(0)=1`, `level(99)=1`, `level(100)=2`, `level(400)=3`,
`level(899)=3`, `level(900)=4`, with the level boundaries sitting at
`xp = 0, 100, 400, 900, 1600`.  (Amended per the counterexample: this
is the `GamificationManager.calculateLevel` of part_007; the duplicate
manager in habit-engine.js computes different thresholds.) -/
theorem claim_C1_level_function :
    (∀ xp k : Nat, Gamification.calculateLevel xp = k + 1 ↔
        k * k * 100 ≤ xp ∧ xp < (k + 1) * (k + 1) * 100)
    ∧ Gamification.calculateLevel 0 = 1
    ∧ Gamification.calculateLevel 99 = 1
    ∧ Gamification.calculateLevel 100 = 2
    ∧ Gamification.calculateLevel 400 = 3
    ∧ Gamification.calculateLevel 899 = 3
    ∧ Gamification.calculateLevel 900 = 4
    ∧ Gamification.calculateLevel 399 = 2
    ∧ Gamification.calculateLevel 1599 = 4
    ∧ Gamification.calculateLevel 1600 = 5 :=
  ⟨Gamification.calculateLevel_eq_iff,
    by norm_num [Gamification.calculateLevel],
    by norm_num [Gamification.calculateLevel],
    by norm_num [Gamification.calculateLevel],
    by norm_num [Gamification.calculateLevel],
    by norm_num [Gamification.calculateLevel],
    by norm_num [Gamification.calculateLevel],
    by norm_num [Gamification.calculateLevel],
    by norm_num [Gamification.calculateLevel],
    by norm_num [Gamification.calculateLevel]⟩

/-- C1, counterexample: the claim speaks of "the level function", but
the repository carries a second `GamificationManager.calculateLevel`
(habit-engine.js, lines 862-874) whose thresholds are
`getXPForLevel = 100, 300, 600, 1000, …`; at `xp = 899` it returns 4,
not the 3 the claim asserts for every xp. -/
theorem claim_C1_counterexample :
    HabitEngineGamification.calculateLevel 899 = 4 ∧
    ¬ HabitEngineGamification.calculateLevel 899 = 3 := by decide

/-- Auxiliary invariant for the streak record: both counters are
non-negative and the best streak dominates the current one. -/
theorem HabitEngine.step_preserves_inv (op : HabitEngine.Op) (s : HabitEngine.EngineState)
    (h0 : 0 ≤ s.streak.currentStreak)
    (hb : s.streak.currentStreak ≤ s.streak.bestStreak) :
    0 ≤ (HabitEngine.step op s).streak.currentStreak ∧
      (HabitEngine.step op s).streak.currentStreak
        ≤ (HabitEngine.step op s).streak.bestStreak := by
  cases op with
  | complete d =>
      simp only [HabitEngine.step, HabitEngine.toggleHabit, HabitEngine.updateStreak,
        if_true]
      split_ifs <;> constructor <;> dsimp only <;> omega
  | uncomplete d =>
      simp only [HabitEngine.step, HabitEngine.toggleHabit, HabitEngine.updateStreak,
        if_false]
      split_ifs <;> constructor <;> dsimp only <;> omega

/-- Auxiliary: the invariant holds along any fold of operations. -/
theorem HabitEngine.foldl_inv (ops : List HabitEngine.Op) (s : HabitEngine.EngineState)
    (h0 : 0 ≤ s.streak.currentStreak)
    (hb : s.streak.currentStreak ≤ s.streak.bestStreak) :
    0 ≤ (ops.foldl (fun s op => HabitEngine.step op s) s).streak.currentStreak ∧
      (ops.foldl (fun s op => HabitEngine.step op s) s).streak.currentStreak
        ≤ (ops.foldl (fun s op => HabitEngine.step op s) s).streak.bestStreak := by
  induction ops generalizing s with
  | nil => exact ⟨h0, hb⟩
  | cons op rest ih =>
      have h := HabitEngine.step_preserves_inv op s h0 hb
      exact ih (HabitEngine.step op s) h.1 h.2

/-- C3: starting from the initial streak record `{currentStreak: 0,
bestStreak: 0}`, after any sequence of completion / un-completion
operations the invariant `bestStreak ≥ currentStreak ≥ 0` (so both
fields are non-negative) holds — and since the sequence is arbitrary, it
holds after every intermediate operation as well. -/
theorem claim_C3_best_streak_invariant (ops : List HabitEngine.Op) :
    0 ≤ (HabitEngine.run ops).streak.currentStreak ∧
      (HabitEngine.run ops).streak.currentStreak
        ≤ (HabitEngine.run ops).streak.bestStreak ∧
      0 ≤ (HabitEngine.run ops).streak.bestStreak := by
  have h := HabitEngine.foldl_inv ops HabitEngine.initState (by decide) (by decide)
  exact ⟨h.1, h.2, le_trans h.1 h.2⟩

/-- Auxiliary: upserting today's log entry does not change whether a
completed log exists for a different day. -/
theorem HabitEngine.hasCompletedLog_upsertLog (e : HabitEngine.HLog)
    (logs : List HabitEngine.HLog) (x : Int) (hx : e.date ≠ x) :
    HabitEngine.hasCompletedLog (HabitEngine.upsertLog e logs) x
      = HabitEngine.hasCompletedLog logs x := by
  induction logs with
  | nil => simp [HabitEngine.upsertLog, HabitEngine.hasCompletedLog, hx]
  | cons l ls ih =>
      by_cases h : l.date = e.date
      · simp [HabitEngine.upsertLog, h, HabitEngine.hasCompletedLog, hx]
      · simp only [HabitEngine.upsertLog, if_neg h, HabitEngine.hasCompletedLog, List.any_cons]
        simp only [HabitEngine.hasCompletedLog] at ih
        rw [ih]

/-- C2: completing a habit increments `currentStreak` by 1 when the
completion is exactly one calendar day after the last completed date
(or is the very first completion), and resets it to 1 — never 0 — after
any larger gap.  The state hypotheses tie the completed-yesterday log
lookup the code performs to the `lastCompleted` field the claim speaks
of (they hold in every state produced by completions).  The concrete
scenario: complete day 1 → `{1, 1}`, day 2 → `{2, 2}`, skip day 3 and
complete day 4 → `{1, 2}`; and the mood-streak variant
(`updateMoodStreak`) obeys the same consecutive-day discipline. -/
theorem claim_C2_streak_consecutive :
    (∀ (s : HabitEngine.EngineState) (d : Int),
      0 ≤ s.streak.currentStreak →
      (HabitEngine.hasCompletedLog s.logs (d - 1) = true ↔
        s.streak.lastCompleted = some (d - 1)) →
      (s.streak.currentStreak = 0 ↔ s.streak.lastCompleted = none) →
      ((s.streak.lastCompleted = some (d - 1) ∨ s.streak.lastCompleted = none →
          (HabitEngine.step (.complete d) s).streak.currentStreak
            = s.streak.currentStreak + 1) ∧
       (∀ l : Int, s.streak.lastCompleted = some l → l < d - 1 →
          (HabitEngine.step (.complete d) s).streak.currentStreak = 1) ∧
       1 ≤ (HabitEngine.step (.complete d) s).streak.currentStreak))
    ∧ ((HabitEngine.run [.complete 1]).streak
        = { currentStreak := 1, bestStreak := 1, lastCompleted := some 1,
            totalCompletions := 1 } ∧
       (HabitEngine.run [.complete 1, .complete 2]).streak
        = { currentStreak := 2, bestStreak := 2, lastCompleted := some 2,
            totalCompletions := 2 } ∧
       (HabitEngine.run [.complete 1, .complete 2, .complete 4]).streak
        = { currentStreak := 1, bestStreak := 2, lastCompleted := some 4,
            totalCompletions := 3 })
    ∧ (∀ st : Int, MentalTracker.updateMoodStreak true true st = st + 1
        ∧ MentalTracker.updateMoodStreak true false st = 1) := by
  refine ⟨?_, by decide, fun st => ⟨rfl, rfl⟩⟩
  intro s d hnn hcoh hfirst
  have hne : ({ date := d, status := .completed } : HabitEngine.HLog).date ≠ d - 1 := by
    dsimp only; omega
  have hup := HabitEngine.hasCompletedLog_upsertLog
    { date := d, status := .completed } s.logs (d - 1) hne
  refine ⟨?_, ?_, ?_⟩
  · rintro (hlast | hlast)
    · have hc : HabitEngine.hasCompletedLog s.logs (d - 1) = true := hcoh.mpr hlast
      simp only [HabitEngine.step, HabitEngine.toggleHabit, HabitEngine.updateStreak,
        if_true, hup, hc, Bool.true_or, if_pos]
    · have h0 : s.streak.currentStreak = 0 := hfirst.mpr hlast
      simp only [HabitEngine.step, HabitEngine.toggleHabit, HabitEngine.updateStreak, if_true]
      simp [hup, h0]
  · intro l hl hlt
    have hno : HabitEngine.hasCompletedLog s.logs (d - 1) = false := by
      cases hcl : HabitEngine.hasCompletedLog s.logs (d - 1) with
      | false => rfl
      | true =>
          have h2 := hcoh.mp hcl
          rw [hl] at h2
          simp only [Option.some.injEq] at h2
          omega
    have hc0 : ¬ s.streak.currentStreak = 0 := by
      intro h
      rw [hfirst.mp h] at hl
      exact Option.noConfusion hl
    simp only [HabitEngine.step, HabitEngine.toggleHabit, HabitEngine.updateStreak, if_true]
    simp [hup, hno, hc0]
  · simp only [HabitEngine.step, HabitEngine.toggleHabit, HabitEngine.updateStreak, if_true]
    split_ifs <;> omega

/-- C2, witness: a concrete state (one completed log on day 4, streak
record `{1, 1, some 4, 1}`) satisfies the theorem's hypotheses, and
completing day 5 increments the streak to 2. -/
theorem claim_C2_witness :
    (0 : Int) ≤ (1 : Int) ∧
    (HabitEngine.step (.complete 5)
        { logs := [{ date := 4, status := .completed }],
          streak := { currentStreak := 1, bestStreak := 1, lastCompleted := some 4,
                      totalCompletions := 1 } }).streak.currentStreak = 1 + 1 :=
  ⟨by decide,
    (claim_C2_streak_consecutive.1
        { logs := [{ date := 4, status := .completed }],
          streak := { currentStreak := 1, bestStreak := 1, lastCompleted := some 4,
                      totalCompletions := 1 } }
        5 (by decide) (by decide) (by decide)).1 (Or.inl (by decide))⟩

/-- Auxiliary: `createSystemStores` declares no `migratedData` object
store. -/
theorem StorageManager.no_migratedData_store :
    (StorageManager.createSystemStores.stores.find?
      (fun p => p.1 = "migratedData")).isSome = false := by decide

/-- C4: an oversize key-value `set` is redirected away from
`localStorage` and reports `false`, and the key-value `get` for a fresh
key indeed returns null afterwards — but, because `createSystemStores`
never declares the `migratedData` object store, the redirected save
into `(systemDB, migratedData)` is rejected and swallowed: the entry is
not retrievable from the migration collection (the collection does not
even exist) and the database is left unchanged, contradicting the
claim's retrievability guarantee. -/
theorem claim_C4_overflow_migration (ls : StorageManager.LocalStore)
    (k v : String) (now : Nat)
    (hsize : StorageManager.maxLocalStorageSize
      < StorageManager.getLocalStorageSize ls + v.length)
    (hfresh : StorageManager.lsGet k ls = none) :
    (StorageManager.saveToLocalStorage k v now
        { localStore := ls, systemDB := StorageManager.createSystemStores }).1 = false ∧
    (StorageManager.saveToLocalStorage k v now
        { localStore := ls, systemDB := StorageManager.createSystemStores }).2.localStore = ls ∧
    StorageManager.getFromLocalStorage k
      (StorageManager.saveToLocalStorage k v now
        { localStore := ls, systemDB := StorageManager.createSystemStores }).2 = none ∧
    StorageManager.getMigratedData
      (StorageManager.saveToLocalStorage k v now
        { localStore := ls, systemDB := StorageManager.createSystemStores }).2.systemDB = none ∧
    (StorageManager.saveToLocalStorage k v now
        { localStore := ls, systemDB := StorageManager.createSystemStores }).2.systemDB
      = StorageManager.createSystemStores := by
  have hmig : StorageManager.migrateToIndexedDB k v now StorageManager.createSystemStores
      = StorageManager.createSystemStores := by
    unfold StorageManager.migrateToIndexedDB StorageManager.saveToDB
    rw [if_neg]
    intro h
    rw [StorageManager.no_migratedData_store] at h
    exact Bool.noConfusion h
  have hmigNone : StorageManager.getMigratedData StorageManager.createSystemStores = none := by
    decide
  simp only [StorageManager.saveToLocalStorage, if_pos hsize, hmig,
    StorageManager.getFromLocalStorage, hfresh, hmigNone]
  exact ⟨trivial, trivial, trivial, trivial, trivial⟩

/-- C4, witness: with an empty `localStorage` and a 5 242 881-character
serialized value, the size check trips, the write reports `false`, the
key reads back as null, and nothing lands in (the nonexistent)
`migratedData`. -/
theorem claim_C4_witness :
    (StorageManager.maxLocalStorageSize
      < StorageManager.getLocalStorageSize []
          + (String.mk (List.replicate 5242881 'a')).length) ∧
    ((StorageManager.saveToLocalStorage "userProfile"
        (String.mk (List.replicate 5242881 'a')) 0
        { localStore := [], systemDB := StorageManager.createSystemStores }).1 = false ∧
     StorageManager.getMigratedData
       (StorageManager.saveToLocalStorage "userProfile"
         (String.mk (List.replicate 5242881 'a')) 0
         { localStore := [], systemDB := StorageManager.createSystemStores }).2.systemDB
       = none) := by
  have hlen : (String.mk (List.replicate 5242881 'a')).length = 5242881 := by
    show (List.replicate 5242881 'a').length = 5242881
    exact List.length_replicate _ _
  have hsize : StorageManager.maxLocalStorageSize
      < StorageManager.getLocalStorageSize []
          + (String.mk (List.replicate 5242881 'a')).length := by
    rw [hlen]
    norm_num [StorageManager.getLocalStorageSize, StorageManager.maxLocalStorageSize]
  have h := claim_C4_overflow_migration [] "userProfile"
    (String.mk (List.replicate 5242881 'a')) 0 hsize rfl
  exact ⟨hsize, h.1, h.2.2.2.1⟩

/-- Auxiliary: after a `Map.set`, looking the key up finds exactly the
value just written. -/
theorem AIIntegration.find?_cacheSet (key : String) (v : AIIntegration.CacheVal)
    (l : List (String × AIIntegration.CacheVal)) :
    (AIIntegration.cacheSet key v l).find? (fun kv => kv.1 = key) = some (key, v) := by
  induction l with
  | nil => simp [AIIntegration.cacheSet]
  | cons kv rest ih =>
      by_cases h : kv.1 = key
      · simp [AIIntegration.cacheSet, h]
      · simp [AIIntegration.cacheSet, h, ih]

/-- Auxiliary: the network branch of `generateRecommendation` always
counts as a producer invocation. -/
theorem AIIntegration.callPath_network (type cacheKey : String) (now today : Int)
    (net : Option String) (rand : Nat) (s : AIIntegration.AIState) :
    (AIIntegration.callPath type cacheKey now today net rand s).2.2 = true := by
  cases net <;> rfl

/-- C5: for each TTL-cached feature — prayer times (24 h), weather
(1 h), AI responses (7 days) — a value cached at time `t0` is returned
unchanged and the network producer is not invoked on any read at time
`t` with `t - t0 < ttl`, while a read with `t - t0 ≥ ttl` treats the
entry as absent and invokes the producer again; for the AI cache a
successful produce writes the response with a fresh timestamp under the
deterministic cache key. -/
theorem claim_C5_cache_ttl :
    (∀ (v city fresh : String) (t0 day0 t day : Int),
        t - t0 < PrayerTimes.cacheExpiry →
        PrayerTimes.initFlow (some (PrayerTimes.cachePrayerTimes v city t0 day0))
          t day city fresh = (v, false, none))
    ∧ (∀ (v city fresh : String) (t0 day0 t day : Int),
        PrayerTimes.cacheExpiry ≤ t - t0 →
        PrayerTimes.initFlow (some (PrayerTimes.cachePrayerTimes v city t0 day0))
          t day city fresh
          = (fresh, true, some (PrayerTimes.cachePrayerTimes fresh city t day)))
    ∧ (∀ (v fresh : String) (t0 t : Int),
        t - t0 < Weather.cacheExpiry →
        Weather.initFlow (some { data := v, timestamp := t0 }) t fresh = (v, false, none))
    ∧ (∀ (v fresh : String) (t0 t : Int),
        Weather.cacheExpiry ≤ t - t0 →
        Weather.initFlow (some { data := v, timestamp := t0 }) t fresh
          = (fresh, true, some { data := fresh, timestamp := t }))
    ∧ (∀ (type ctx resp : String) (t0 t today : Int) (net : Option String)
        (rand : Nat) (s : AIIntegration.AIState),
        s.requestCount < AIIntegration.dailyQuota →
        s.cache.find? (fun kv => kv.1 = AIIntegration.generateCacheKey type ctx)
          = some (AIIntegration.generateCacheKey type ctx,
                  { response := resp, timestamp := t0, type := type }) →
        ((t - t0 < AIIntegration.cacheExpiry →
            AIIntegration.generateRecommendation type ctx t today net rand s
              = (resp, s, false)) ∧
         (AIIntegration.cacheExpiry ≤ t - t0 →
            (AIIntegration.generateRecommendation type ctx t today net rand s).2.2 = true)))
    ∧ (∀ (type ctx resp : String) (t0 today : Int) (rand : Nat)
        (s : AIIntegration.AIState),
        s.requestCount < AIIntegration.dailyQuota →
        s.cache.find? (fun kv => kv.1 = AIIntegration.generateCacheKey type ctx) = none →
        (AIIntegration.generateRecommendation type ctx t0 today (some resp) rand s).1 = resp ∧
        ((AIIntegration.generateRecommendation type ctx t0 today (some resp) rand s).2.1).cache.find?
            (fun kv => kv.1 = AIIntegration.generateCacheKey type ctx)
          = some (AIIntegration.generateCacheKey type ctx,
                  { response := resp, timestamp := t0, type := type })) := by
  refine ⟨?_, ?_, ?_, ?_, ?_, ?_⟩
  · intro v city fresh t0 day0 t day h
    simp [PrayerTimes.initFlow, PrayerTimes.isCacheValid, PrayerTimes.cachePrayerTimes, h]
  · intro v city fresh t0 day0 t day h
    simp [PrayerTimes.initFlow, PrayerTimes.isCacheValid, PrayerTimes.cachePrayerTimes,
      not_lt.mpr h]
  · intro v fresh t0 t h
    simp [Weather.initFlow, h]
  · intro v fresh t0 t h
    simp [Weather.initFlow, not_lt.mpr h]
  · intro type ctx resp t0 t today net rand s hq hfind
    constructor
    · intro h
      simp [AIIntegration.generateRecommendation, AIIntegration.isAIAvailable, hq, hfind,
        AIIntegration.isCacheValid, h]
    · intro h
      simp [AIIntegration.generateRecommendation, AIIntegration.isAIAvailable, hq, hfind,
        AIIntegration.isCacheValid, not_lt.mpr h, AIIntegration.callPath_network]
  · intro type ctx resp t0 today rand s hq hfind
    simp [AIIntegration.generateRecommendation, AIIntegration.isAIAvailable, hq, hfind,
      AIIntegration.callPath, AIIntegration.incrementDailyCount, AIIntegration.saveDailyCount,
      AIIntegration.find?_cacheSet]

/-- C5, witness: with the weather TTL of 3 600 000 ms, a value cached at
t₀ = 0 is served from cache at t = 3 599 000 and refreshed at
t = 3 601 000; a prayer-times entry cached at 0 is served at t = 1000;
an AI response cached at 0 is served at t = 1000 without a network
call. -/
theorem claim_C5_witness :
    ((3599000 : Int) - 0 < Weather.cacheExpiry ∧
      Weather.initFlow (some { data := "w", timestamp := 0 }) 3599000 "f"
        = ("w", false, none)) ∧
    (Weather.cacheExpiry ≤ (3601000 : Int) - 0 ∧
      Weather.initFlow (some { data := "w", timestamp := 0 }) 3601000 "f"
        = ("f", true, some { data := "f", timestamp := 3601000 })) ∧
    PrayerTimes.initFlow (some (PrayerTimes.cachePrayerTimes "p" "Jakarta" 0 0))
        1000 0 "Jakarta" "q" = ("p", false, none) ∧
    AIIntegration.generateRecommendation "motivation" "ctx" 1000 0 none 0
        { requestCount := 0,
          cache := [(AIIntegration.generateCacheKey "motivation" "ctx",
                     { response := "resp", timestamp := 0, type := "motivation" })] }
      = ("resp",
         { requestCount := 0,
           cache := [(AIIntegration.generateCacheKey "motivation" "ctx",
                      { response := "resp", timestamp := 0, type := "motivation" })] },
         false) := by
  refine ⟨⟨by norm_num [Weather.cacheExpiry], ?_⟩,
          ⟨by norm_num [Weather.cacheExpiry], ?_⟩, ?_, ?_⟩
  · exact claim_C5_cache_ttl.2.2.1 "w" "f" 0 3599000 (by norm_num [Weather.cacheExpiry])
  · exact claim_C5_cache_ttl.2.2.2.1 "w" "f" 0 3601000 (by norm_num [Weather.cacheExpiry])
  · exact claim_C5_cache_ttl.1 "p" "Jakarta" "q" 0 0 1000 0
      (by norm_num [PrayerTimes.cacheExpiry])
  · exact (claim_C5_cache_ttl.2.2.2.2.1 "motivation" "ctx" "resp" 0 1000 0 none 0
      { requestCount := 0,
        cache := [(AIIntegration.generateCacheKey "motivation" "ctx",
                   { response := "resp", timestamp := 0, type := "motivation" })] }
      (by norm_num [AIIntegration.dailyQuota])
      (AIIntegration.find?_cacheSet (AIIntegration.generateCacheKey "motivation" "ctx")
        { response := "resp", timestamp := 0, type := "motivation" } [])).1
      (by norm_num [AIIntegration.cacheExpiry])

/-- Auxiliary: a poll maps each queue entry pointwise — a due entry
becomes `triggered`, every other entry is untouched. -/
theorem Notif.poll_getElem? (s : Notif.NMState) (t : Int) (i : Nat) :
    (Notif.checkScheduledNotifications t s).scheduledNotifications[i]?
      = s.scheduledNotifications[i]?.map
          (fun n => if Notif.isDue n t then { n with status := .triggered } else n) := by
  simp only [Notif.checkScheduledNotifications]
  split <;> simp [List.getElem?_map]

/-- Auxiliary: a `triggered` entry is never due, so it collects no
further delivery attempts across any sequence of polls. -/
theorem Notif.attempts_of_triggered (ts : List Int) (s : Notif.NMState) (i : Nat)
    (n : Notif.SN) (hget : s.scheduledNotifications[i]? = some n)
    (hstat : n.status = .triggered) :
    Notif.deliveryAttempts i s ts = 0 := by
  induction ts generalizing s n with
  | nil => rfl
  | cons t ts ih =>
      have hdue : Notif.isDue n t = false := by
        simp [Notif.isDue, hstat]
      have hget' : (Notif.checkScheduledNotifications t s).scheduledNotifications[i]?
          = some n := by
        rw [Notif.poll_getElem?, hget]
        simp [hdue]
      simp only [Notif.deliveryAttempts, hget, hdue]
      simpa using ih (Notif.checkScheduledNotifications t s) n hget' hstat

/-- C6: across any sequence of poll instants, each queue entry receives
at most one delivery attempt; the poll that processes a due entry finds
it `scheduled` and flips it to `triggered`; and an entry whose status is
`triggered` never satisfies the poll's due filter (which selects exactly
`status = scheduled ∧ scheduledTime ≤ now`). -/
theorem claim_C6_at_most_once :
    (∀ (s : Notif.NMState) (ts : List Int) (i : Nat),
        Notif.deliveryAttempts i s ts ≤ 1)
    ∧ (∀ (s : Notif.NMState) (t : Int) (i : Nat) (n : Notif.SN),
        s.scheduledNotifications[i]? = some n → Notif.isDue n t = true →
        n.status = .scheduled ∧
        (Notif.checkScheduledNotifications t s).scheduledNotifications[i]?
          = some { n with status := .triggered })
    ∧ (∀ (n : Notif.SN) (t : Int), n.status = .triggered →
        Notif.isDue n t = false) := by
  refine ⟨?_, ?_, ?_⟩
  · intro s ts i
    induction ts generalizing s with
    | nil => exact Nat.zero_le 1
    | cons t ts ih =>
        cases hget : s.scheduledNotifications[i]? with
        | none =>
            simp only [Notif.deliveryAttempts, hget]
            simpa using ih (Notif.checkScheduledNotifications t s)
        | some n =>
            cases hdue : Notif.isDue n t with
            | false =>
                simp only [Notif.deliveryAttempts, hget, hdue]
                simpa using ih (Notif.checkScheduledNotifications t s)
            | true =>
                have hget' : (Notif.checkScheduledNotifications t s).scheduledNotifications[i]?
                    = some { n with status := .triggered } := by
                  rw [Notif.poll_getElem?, hget]
                  simp [hdue]
                have hzero := Notif.attempts_of_triggered ts
                  (Notif.checkScheduledNotifications t s) i
                  { n with status := .triggered } hget' rfl
                simp only [Notif.deliveryAttempts, hget, hdue, if_true, hzero]
                omega
  · intro s t i n hget hdue
    have hstat : n.status = .scheduled := by
      simp only [Notif.isDue, Bool.and_eq_true, decide_eq_true_eq] at hdue
      exact hdue.2
    refine ⟨hstat, ?_⟩
    rw [Notif.poll_getElem?, hget]
    simp [hdue]
  · intro n t h
    simp [Notif.isDue, h]

/-- C6, witness: a single due scheduled entry is attempted exactly once
over three successive polls, transitioning to `triggered` on the
first. -/
theorem claim_C6_witness :
    Notif.isDue { id := 1, title := "t", message := "m", scheduledTime := 0,
                  status := .scheduled } 5 = true ∧
    (Notif.checkScheduledNotifications 5
        { permission := .granted,
          scheduledNotifications := [{ id := 1, title := "t", message := "m",
                                       scheduledTime := 0, status := .scheduled }] }
      ).scheduledNotifications[0]?
      = some { id := 1, title := "t", message := "m", scheduledTime := 0,
               status := .triggered } ∧
    Notif.deliveryAttempts 0
        { permission := .granted,
          scheduledNotifications := [{ id := 1, title := "t", message := "m",
                                       scheduledTime := 0, status := .scheduled }] }
        [5, 65, 125] ≤ 1 :=
  ⟨by decide,
   (claim_C6_at_most_once.2.1
      { permission := .granted,
        scheduledNotifications := [{ id := 1, title := "t", message := "m",
                                     scheduledTime := 0, status := .scheduled }] }
      5 0 { id := 1, title := "t", message := "m", scheduledTime := 0,
            status := .scheduled } (by decide) (by decide)).2,
   claim_C6_at_most_once.1
      { permission := .granted,
        scheduledNotifications := [{ id := 1, title := "t", message := "m",
                                     scheduledTime := 0, status := .scheduled }] }
      [5, 65, 125] 0⟩

/-- C7, counterexample: permission is `denied`, one due scheduled entry;
after a single poll the entry's status is `triggered` (nothing was
delivered) — it does not remain `scheduled` as the claim asserts. -/
theorem claim_C7_counterexample :
    (Notif.checkScheduledNotifications 5
        { permission := .denied,
          scheduledNotifications := [{ id := 1, title := "t", message := "m",
                                       scheduledTime := 0, status := .scheduled }] }
      ).scheduledNotifications
      = [{ id := 1, title := "t", message := "m", scheduledTime := 0,
           status := .triggered }] ∧
    (Notif.checkScheduledNotifications 5
        { permission := .denied,
          scheduledNotifications := [{ id := 1, title := "t", message := "m",
                                       scheduledTime := 0, status := .scheduled }] }
      ).delivered = [] ∧
    ¬ ((Notif.checkScheduledNotifications 5
        { permission := .denied,
          scheduledNotifications := [{ id := 1, title := "t", message := "m",
                                       scheduledTime := 0, status := .scheduled }] }
      ).scheduledNotifications
      = [{ id := 1, title := "t", message := "m", scheduledTime := 0,
           status := .scheduled }]) := by decide

/-- C7, amended: when permission is not granted, a due entry's delivery
is skipped (nothing is handed to the platform), but the entry does not
remain `scheduled`: the poll still marks it `triggered`, so it is never
retried once permission is granted. -/
theorem claim_C7_ungranted_marks_triggered (s : Notif.NMState) (now : Int)
    (i : Nat) (n : Notif.SN)
    (hperm : ¬ s.permission = .granted)
    (hget : s.scheduledNotifications[i]? = some n)
    (hdue : Notif.isDue n now = true) :
    (Notif.checkScheduledNotifications now s).delivered = s.delivered ∧
    (Notif.checkScheduledNotifications now s).scheduledNotifications[i]?
      = some { n with status := .triggered } := by
  constructor
  · simp only [Notif.checkScheduledNotifications, if_neg hperm]
    split <;> rfl
  · rw [Notif.poll_getElem?, hget]
    simp [hdue]

/-- C7, witness: the amended behaviour at the counterexample's input. -/
theorem claim_C7_witness :
    (¬ (Notif.Permission.denied = Notif.Permission.granted)) ∧
    (Notif.checkScheduledNotifications 5
        { permission := .denied,
          scheduledNotifications := [{ id := 1, title := "t", message := "m",
                                       scheduledTime := 0, status := .scheduled }] }
      ).delivered = [] ∧
    (Notif.checkScheduledNotifications 5
        { permission := .denied,
          scheduledNotifications := [{ id := 1, title := "t", message := "m",
                                       scheduledTime := 0, status := .scheduled }] }
      ).scheduledNotifications[0]?
      = some { id := 1, title := "t", message := "m", scheduledTime := 0,
               status := .triggered } := by
  have h := claim_C7_ungranted_marks_triggered
    { permission := .denied,
      scheduledNotifications := [{ id := 1, title := "t", message := "m",
                                   scheduledTime := 0, status := .scheduled }] }
    5 0 { id := 1, title := "t", message := "m", scheduledTime := 0,
          status := .scheduled } (by decide) (by decide) (by decide)
  exact ⟨by decide, h.1, h.2⟩

/-- Auxiliary: full evaluation of `addXPCore` when the new level stays
below 5, so `handleLevelUp` unlocks nothing: both XP counters grow by
`amount`, the level is recomputed (kept when there is no level-up), the
achievements are untouched, the final stats are persisted, and the
returned record carries the old level, the new level and the updated
xp. -/
theorem Gamification.addXPCore_spec
    (unlock : String → Nat → Gamification.GState →
      Gamification.GState × Option Gamification.Achievement)
    (amount now : Nat) (g : Gamification.GState)
    (h5 : Gamification.calculateLevel (g.stats.xp + amount) < 5) :
    Gamification.addXPCore unlock amount now g
      = ({ stats := { level := if Gamification.calculateLevel g.stats.xp
                          < Gamification.calculateLevel (g.stats.xp + amount)
                        then Gamification.calculateLevel (g.stats.xp + amount)
                        else g.stats.level,
                      xp := g.stats.xp + amount,
                      totalXP := g.stats.totalXP + amount },
           achievements := g.achievements,
           persistedProfile := some
             { level := if Gamification.calculateLevel g.stats.xp
                   < Gamification.calculateLevel (g.stats.xp + amount)
                 then Gamification.calculateLevel (g.stats.xp + amount)
                 else g.stats.level,
               xp := g.stats.xp + amount,
               totalXP := g.stats.totalXP + amount },
           persistedAchievements := g.persistedAchievements },
         { oldLevel := Gamification.calculateLevel g.stats.xp,
           newLevel := Gamification.calculateLevel (g.stats.xp + amount),
           xp := g.stats.xp + amount }) := by
  have h15 : ¬ 15 ≤ Gamification.calculateLevel (g.stats.xp + amount) := by omega
  have h5' : ¬ 5 ≤ Gamification.calculateLevel (g.stats.xp + amount) := by omega
  by_cases hlv : Gamification.calculateLevel g.stats.xp
      < Gamification.calculateLevel (g.stats.xp + amount)
  · simp [Gamification.addXPCore, Gamification.handleLevelUpCore, hlv, h5', h15]
  · simp [Gamification.addXPCore, Gamification.handleLevelUpCore, hlv]

/-- Auxiliary: `idUnlocked` on a cons steps through the head. -/
theorem Gamification.idUnlocked_cons (id : String) (a : Gamification.Achievement)
    (rest : List Gamification.Achievement) :
    Gamification.idUnlocked id (a :: rest)
      = if a.id = id then a.unlocked else Gamification.idUnlocked id rest := by
  by_cases h : a.id = id <;> simp [Gamification.idUnlocked, List.find?, h]

/-- Auxiliary: marking an id unlocked makes `idUnlocked` hold for it. -/
theorem Gamification.idUnlocked_markUnlocked_self (id : String) (now : Nat)
    (l : List Gamification.Achievement) :
    Gamification.idUnlocked id (Gamification.markUnlocked id now l) = true := by
  induction l with
  | nil => rfl
  | cons a rest ih =>
      by_cases h : a.id = id
      · simp [Gamification.markUnlocked, h, Gamification.idUnlocked_cons]
      · simp only [Gamification.markUnlocked, if_neg h]
        rw [Gamification.idUnlocked_cons, if_neg h]
        exact ih

/-- Auxiliary: marking any id unlocked preserves `idUnlocked` for every
id (flags only ever flip from locked to unlocked, ids never change). -/
theorem Gamification.idUnlocked_markUnlocked (id id' : String) (now : Nat)
    (l : List Gamification.Achievement)
    (h : Gamification.idUnlocked id l = true) :
    Gamification.idUnlocked id (Gamification.markUnlocked id' now l) = true := by
  induction l with
  | nil => rfl
  | cons a rest ih =>
      rw [Gamification.idUnlocked_cons] at h
      by_cases hm : a.id = id'
      · simp only [Gamification.markUnlocked, if_pos hm]
        rw [Gamification.idUnlocked_cons]
        by_cases hi : a.id = id
        · simp [hi]
        · simp only [hi] at h
          simpa [hi] using h
      · simp only [Gamification.markUnlocked, if_neg hm]
        rw [Gamification.idUnlocked_cons]
        by_cases hi : a.id = id
        · simpa [hi] using h
        · simp only [hi] at h
          simp only [hi, if_false]
          exact ih (by simpa [hi] using h)

/-- Auxiliary: `addXPCore` touches the achievements only through its
unlock argument, so any id-unlocked fact preserved by the unlock
function is preserved by `addXPCore`. -/
theorem Gamification.idUnlocked_addXPCore (id : String)
    (unlock : String → Nat → Gamification.GState →
      Gamification.GState × Option Gamification.Achievement)
    (hu : ∀ (id' : String) (n' : Nat) (g' : Gamification.GState),
      Gamification.idUnlocked id g'.achievements = true →
      Gamification.idUnlocked id ((unlock id' n' g').1).achievements = true)
    (amount now : Nat) (g : Gamification.GState)
    (h : Gamification.idUnlocked id g.achievements = true) :
    Gamification.idUnlocked id
      ((Gamification.addXPCore unlock amount now g).1).achievements = true := by
  simp only [Gamification.addXPCore, Gamification.handleLevelUpCore]
  split_ifs <;>
    first
      | exact h
      | exact hu _ _ _ h
      | exact hu _ _ _ (hu _ _ _ h)

/-- Auxiliary: `unlockAchievement` preserves any id-unlocked fact, for
every fuel. -/
theorem Gamification.idUnlocked_unlockAchievement (id : String) :
    ∀ (fuel : Nat) (id' : String) (n : Nat) (g : Gamification.GState),
      Gamification.idUnlocked id g.achievements = true →
      Gamification.idUnlocked id
        ((Gamification.unlockAchievement fuel id' n g).1).achievements = true := by
  intro fuel
  induction fuel with
  | zero => intro id' n g h; exact h
  | succ f ih =>
      intro id' n g h
      simp only [Gamification.unlockAchievement]
      cases hf : g.achievements.find? (fun a => a.id = id') with
      | none => exact h
      | some a =>
          by_cases ha : a.unlocked
          · simp [ha, h]
          · simp only [ha, if_false]
            exact Gamification.idUnlocked_addXPCore id _ ih a.xpReward n
              { g with achievements := Gamification.markUnlocked id' n g.achievements }
              (Gamification.idUnlocked_markUnlocked id id' n g.achievements h)

/-- Auxiliary: when the id is absent or already unlocked,
`unlockAchievement` is a no-op returning `none`. -/
theorem Gamification.unlockAchievement_noop (fuel : Nat) (id : String) (n : Nat)
    (g : Gamification.GState)
    (h : Gamification.idUnlocked id g.achievements = true) :
    Gamification.unlockAchievement fuel id n g = (g, none) := by
  cases fuel with
  | zero => rfl
  | succ f =>
      simp only [Gamification.unlockAchievement]
      cases hf : g.achievements.find? (fun a => a.id = id) with
      | none => rfl
      | some a =>
          have ha : a.unlocked = true := by
            simpa [Gamification.idUnlocked, hf] using h
          simp [ha]

/-- Auxiliary: after an `unlockAchievement` call with positive fuel, the
id is unlocked (or still absent). -/
theorem Gamification.idUnlocked_after_unlock (fuel : Nat) (id : String) (n : Nat)
    (g : Gamification.GState) :
    Gamification.idUnlocked id
      ((Gamification.unlockAchievement (fuel + 1) id n g).1).achievements = true := by
  simp only [Gamification.unlockAchievement]
  cases hf : g.achievements.find? (fun a => a.id = id) with
  | none => simp [Gamification.idUnlocked, hf]
  | some a =>
      by_cases ha : a.unlocked
      · simp [ha, Gamification.idUnlocked, hf]
      · simp only [ha, if_false]
        exact Gamification.idUnlocked_addXPCore id _
          (Gamification.idUnlocked_unlockAchievement id fuel) a.xpReward n
          { g with achievements := Gamification.markUnlocked id n g.achievements }
          (Gamification.idUnlocked_markUnlocked_self id n g.achievements)

/-- C9: `unlockAchievement` is idempotent — after one unlock of an id
(any positive fuel), a second call for the same id is a no-op returning
`none`, so the state (in particular the XP total) after two calls
equals the state after one; unlocking an already-unlocked achievement
is a no-op; and a genuine unlock returns the entry with
`unlocked = true` and a stamped `unlockedAt`, leaves the id unlocked in
the state, and awards exactly the achievement's `xpReward` through the
internal `addXP` call (stated where the reward does not cascade into a
level-5 unlock). -/
theorem claim_C9_unlock_idempotent :
    (∀ (f1 f2 : Nat) (id : String) (n1 n2 : Nat) (g : Gamification.GState),
        Gamification.unlockAchievement f2 id n2
            (Gamification.unlockAchievement (f1 + 1) id n1 g).1
          = ((Gamification.unlockAchievement (f1 + 1) id n1 g).1, none))
    ∧ (∀ (f : Nat) (id : String) (n : Nat) (g : Gamification.GState)
        (a : Gamification.Achievement),
        g.achievements.find? (fun x => x.id = id) = some a → a.unlocked = true →
        Gamification.unlockAchievement f id n g = (g, none))
    ∧ (∀ (f : Nat) (id : String) (n : Nat) (g : Gamification.GState)
        (a : Gamification.Achievement),
        g.achievements.find? (fun x => x.id = id) = some a → a.unlocked = false →
        ((Gamification.unlockAchievement (f + 1) id n g).2
            = some { a with unlocked := true, unlockedAt := some n } ∧
         Gamification.idUnlocked id
           ((Gamification.unlockAchievement (f + 1) id n g).1).achievements = true ∧
         (Gamification.calculateLevel (g.stats.xp + a.xpReward) < 5 →
           ((Gamification.unlockAchievement (f + 1) id n g).1).stats.xp
             = g.stats.xp + a.xpReward))) := by
  refine ⟨?_, ?_, ?_⟩
  · intro f1 f2 id n1 n2 g
    exact Gamification.unlockAchievement_noop f2 id n2 _
      (Gamification.idUnlocked_after_unlock f1 id n1 g)
  · intro f id n g a hf ha
    exact Gamification.unlockAchievement_noop f id n g
      (by simp [Gamification.idUnlocked, hf, ha])
  · intro f id n g a hf ha
    refine ⟨?_, Gamification.idUnlocked_after_unlock f id n g, ?_⟩
    · simp [Gamification.unlockAchievement, hf, ha]
    · intro h5
      simp only [Gamification.unlockAchievement, hf, ha, if_false]
      rw [Gamification.addXPCore_spec (Gamification.unlockAchievement f)
        a.xpReward n { g with achievements := Gamification.markUnlocked id n g.achievements }
        h5]
      simp

/-- C9, witness: unlocking the locked `first_habit` achievement (reward
50) from a fresh profile awards the reward, and a second unlock of the
same id is a no-op. -/
theorem claim_C9_witness :
    (([({ id := "first_habit", xpReward := 50, unlocked := false, unlockedAt := none } :
          Gamification.Achievement)].find? (fun x => x.id = "first_habit"))
        = some { id := "first_habit", xpReward := 50, unlocked := false, unlockedAt := none } ∧
     ({ id := "first_habit", xpReward := 50, unlocked := false,
        unlockedAt := none } : Gamification.Achievement).unlocked = false) ∧
    (Gamification.unlockAchievement 1 "first_habit" 7
        { stats := { level := 1, xp := 0, totalXP := 0 },
          achievements := [{ id := "first_habit", xpReward := 50, unlocked := false,
                             unlockedAt := none }] }).2
      = some { id := "first_habit", xpReward := 50, unlocked := true,
               unlockedAt := some 7 } ∧
    ((Gamification.unlockAchievement 1 "first_habit" 7
        { stats := { level := 1, xp := 0, totalXP := 0 },
          achievements := [{ id := "first_habit", xpReward := 50, unlocked := false,
                             unlockedAt := none }] }).1).stats.xp = 0 + 50 ∧
    (Gamification.unlockAchievement 1 "first_habit" 9
        (Gamification.unlockAchievement 1 "first_habit" 7
          { stats := { level := 1, xp := 0, totalXP := 0 },
            achievements := [{ id := "first_habit", xpReward := 50, unlocked := false,
                               unlockedAt := none }] }).1)
      = ((Gamification.unlockAchievement 1 "first_habit" 7
          { stats := { level := 1, xp := 0, totalXP := 0 },
            achievements := [{ id := "first_habit", xpReward := 50, unlocked := false,
                               unlockedAt := none }] }).1, none) := by
  have hfind : ([({ id := "first_habit", xpReward := 50, unlocked := false,
                      unlockedAt := none } : Gamification.Achievement)].find?
        (fun x => x.id = "first_habit"))
      = some { id := "first_habit", xpReward := 50, unlocked := false,
               unlockedAt := none } := by decide
  have h3 := claim_C9_unlock_idempotent.2.2 0 "first_habit" 7
    { stats := { level := 1, xp := 0, totalXP := 0 },
      achievements := [{ id := "first_habit", xpReward := 50, unlocked := false,
                         unlockedAt := none }] }
    { id := "first_habit", xpReward := 50, unlocked := false, unlockedAt := none }
    hfind rfl
  refine ⟨⟨hfind, rfl⟩, h3.1, h3.2.2 ?_, ?_⟩
  · norm_num [Gamification.calculateLevel]
  · exact claim_C9_unlock_idempotent.1 0 1 "first_habit" 7 9
      { stats := { level := 1, xp := 0, totalXP := 0 },
        achievements := [{ id := "first_habit", xpReward := 50, unlocked := false,
                           unlockedAt := none }] }

/-- C8: at level 1 with 90 xp (and 90 lifetime XP), `addXP 25` returns
`{oldLevel: 1, newLevel: 2, xp: 115}` — the returned total is the
updated xp, which equals the lifetime total here — with the updated
profile `{level: 2, xp: 115, totalXP: 115}` persisted before returning;
in general (stated below a level-5 cascade) `addXP` adds the amount to
both `xp` and `totalXP`, recomputes the level from the xp, persists the
final stats, and returns `{oldLevel, newLevel, xp}`, whose third field
equals the lifetime `totalXP` whenever `xp = totalXP` beforehand (as in
every state reachable from a fresh profile, where the two are only ever
incremented together). -/
theorem claim_C8_addXP_contract :
    (Gamification.addXP 1 25 0
        { stats := { level := 1, xp := 90, totalXP := 90 }, achievements := [] }
      = ({ stats := { level := 2, xp := 115, totalXP := 115 },
           achievements := [],
           persistedProfile := some { level := 2, xp := 115, totalXP := 115 },
           persistedAchievements := none },
         { oldLevel := 1, newLevel := 2, xp := 115 }))
    ∧ (∀ (fuel amount now : Nat) (g : Gamification.GState),
        Gamification.calculateLevel (g.stats.xp + amount) < 5 →
        ((Gamification.addXP fuel amount now g).2
            = { oldLevel := Gamification.calculateLevel g.stats.xp,
                newLevel := Gamification.calculateLevel (g.stats.xp + amount),
                xp := g.stats.xp + amount } ∧
         ((Gamification.addXP fuel amount now g).1).stats.xp = g.stats.xp + amount ∧
         ((Gamification.addXP fuel amount now g).1).stats.totalXP
            = g.stats.totalXP + amount ∧
         ((Gamification.addXP fuel amount now g).1).persistedProfile
            = some ((Gamification.addXP fuel amount now g).1).stats ∧
         (g.stats.xp = g.stats.totalXP →
            (Gamification.addXP fuel amount now g).2.xp
              = ((Gamification.addXP fuel amount now g).1).stats.totalXP))) := by
  constructor
  · have h := Gamification.addXPCore_spec (Gamification.unlockAchievement 1) 25 0
      { stats := { level := 1, xp := 90, totalXP := 90 }, achievements := [] }
      (by norm_num [Gamification.calculateLevel])
    simp only [Gamification.addXP, h]
    norm_num [Gamification.calculateLevel]
  · intro fuel amount now g h5
    have h := Gamification.addXPCore_spec (Gamification.unlockAchievement fuel)
      amount now g h5
    simp only [Gamification.addXP, h]
    refine ⟨trivial, trivial, trivial, trivial, fun hxp => by rw [hxp]⟩

/-- C8, witness: the general contract instantiated at the concrete
level-1, 90-xp scenario. -/
theorem claim_C8_witness :
    Gamification.calculateLevel (90 + 25) < 5 ∧
    (Gamification.addXP 3 25 0
        { stats := { level := 1, xp := 90, totalXP := 90 }, achievements := [] }).2
      = { oldLevel := Gamification.calculateLevel 90,
          newLevel := Gamification.calculateLevel (90 + 25),
          xp := 90 + 25 } := by
  have h5 : Gamification.calculateLevel (90 + 25) < 5 := by
    norm_num [Gamification.calculateLevel]
  exact ⟨h5, (claim_C8_addXP_contract.2 3 25 0
    { stats := { level := 1, xp := 90, totalXP := 90 }, achievements := [] } h5).1⟩

/-- C10: when the persisted per-day counter has reached the daily quota
of 20, a recommendation request returns the fallback response for its
type (deterministically in the state and the random draw), performs no
network call, and leaves the state untouched; the counter loaded from
storage resets to 0 exactly when the stored date differs from today
(local midnight having passed), is kept when the date is today, and is
persisted together with the current day's date. -/
theorem claim_C10_quota_fallback :
    (∀ (type ctx : String) (now today : Int) (net : Option String) (rand : Nat)
        (s : AIIntegration.AIState),
        AIIntegration.dailyQuota ≤ s.requestCount →
        AIIntegration.generateRecommendation type ctx now today net rand s
          = (AIIntegration.getFallbackResponse type rand, s, false))
    ∧ (∀ (u : AIIntegration.Usage) (today : Int),
        ¬ u.date = today → AIIntegration.loadDailyCount (some u) today = 0)
    ∧ (∀ (u : AIIntegration.Usage) (today : Int),
        u.date = today → AIIntegration.loadDailyCount (some u) today = u.count)
    ∧ AIIntegration.loadDailyCount none 0 = 0
    ∧ (∀ (today : Int) (s : AIIntegration.AIState),
        (AIIntegration.saveDailyCount today s).persistedUsage
          = some { date := today, count := s.requestCount }) := by
  refine ⟨?_, ?_, ?_, rfl, fun today s => rfl⟩
  · intro type ctx now today net rand s hq
    simp [AIIntegration.generateRecommendation, AIIntegration.isAIAvailable,
      Nat.not_lt.mpr hq]
  · intro u today h
    simp [AIIntegration.loadDailyCount, h]
  · intro u today h
    simp [AIIntegration.loadDailyCount, h]

/-- C10, witness: at the quota of 20 the request falls back with no
network call even though the producer has a response ready, and the
stored counter `{date: 3, count: 7}` read on day 4 resets to 0 while
the same record read on day 3 keeps its count. -/
theorem claim_C10_witness :
    AIIntegration.dailyQuota ≤ 20 ∧
    AIIntegration.generateRecommendation "motivation" "ctx" 0 0 (some "resp") 0
        { requestCount := 20, cache := [] }
      = (AIIntegration.getFallbackResponse "motivation" 0,
         { requestCount := 20, cache := [] }, false) ∧
    AIIntegration.loadDailyCount (some { date := 3, count := 7 }) 4 = 0 ∧
    AIIntegration.loadDailyCount (some { date := 3, count := 7 }) 3 = 7 :=
  ⟨by norm_num [AIIntegration.dailyQuota],
   claim_C10_quota_fallback.1 "motivation" "ctx" 0 0 (some "resp") 0
     { requestCount := 20, cache := [] } (by norm_num [AIIntegration.dailyQuota]),
   claim_C10_quota_fallback.2.1 { date := 3, count := 7 } 4 (by norm_num),
   claim_C10_quota_fallback.2.2.1 { date := 3, count := 7 } 3 rfl⟩
